import Mathlib

/-!
Shallow embedding of the PayPal webhook handler (`paypalWebhookHandler` in the
cloud-function source of the repository).  The handler is modelled as a pure
function of:
  * a configuration (`PayPalConfig`) — the deployment-environment flag and the
    `functions.config().paypal.*` values the handler reads (webhook ids and
    plan ids; client credentials only parameterise the external HTTP client,
    which is abstracted into the `World` below, so they are not modelled);
  * a `World` — the outcomes of the two external calls (signature
    verification, Firestore document update);
  * a `Request` — method, the five provider headers, and the raw body.
The result records the HTTP response (or the fact that an exception escaped
the handler uncaught), whether the verification call was issued, and the
partial-field store update that was attempted, keyed by the Firebase user id.

JavaScript truthiness is modelled explicitly: a missing value is `none`, and
an empty string is falsy wherever the source tests a string with `!x`,
`x || y`, `if (x)` or `x && y`.
-/

/-- JS truthiness of an optional string: `undefined` and `""` are falsy. -/
def truthyOpt (o : Option String) : Bool :=
  match o with
  | none => false
  | some s => s ≠ ""

/-- JS `a || b` on optional strings: keeps `a` when truthy, else `b`. -/
def jsOr (a b : Option String) : Option String :=
  if truthyOpt a then a else b

/-- The `functions.config().paypal.*` values read by the handler, plus the
`NODE_ENV === "production"` flag.  A `none` field is an unset config value. -/
structure PayPalConfig where
  production : Bool
  webhook_id : Option String
  sandbox_webhook_id : Option String
  live_plan_monthly : Option String
  sandbox_plan_monthly : Option String
  live_plan_yearly : Option String
  sandbox_plan_yearly : Option String
  live_plan_trial : Option String
  sandbox_plan_trial : Option String
deriving DecidableEq, Repr

/-- The module-level `webhookId` constant: in production the live webhook id,
otherwise the sandbox id with JS `||` fallback to the live one. -/
def webhookId (c : PayPalConfig) : Option String :=
  if c.production then c.webhook_id else jsOr c.sandbox_webhook_id c.webhook_id

/-- The configured monthly plan id, resolved with the live/sandbox fallback
exactly as in the plan-name block of the source. -/
def planIdMonthly (c : PayPalConfig) : Option String :=
  if c.production then c.live_plan_monthly
  else jsOr c.sandbox_plan_monthly c.live_plan_monthly

/-- The configured yearly plan id, resolved with the live/sandbox fallback. -/
def planIdYearly (c : PayPalConfig) : Option String :=
  if c.production then c.live_plan_yearly
  else jsOr c.sandbox_plan_yearly c.live_plan_yearly

/-- The configured trial plan id, resolved with the live/sandbox fallback. -/
def planIdTrial (c : PayPalConfig) : Option String :=
  if c.production then c.live_plan_trial
  else jsOr c.sandbox_plan_trial c.live_plan_trial

/-- The `resource` object of the webhook event body; every field is optional
in the JSON of the provider. -/
structure Resource where
  id : Option String
  billing_agreement_id : Option String
  plan_id : Option String
  custom_id : Option String
deriving DecidableEq, Repr

/-- The parsed webhook event body.  `resource` is `none` when the JSON object
has no `resource` member (the source then hits a TypeError dereferencing
`resource.custom_id`). -/
structure Event where
  event_type : Option String
  resource : Option Resource
deriving DecidableEq, Repr

/-- The raw request body: either bytes that are not valid JSON (on which
`JSON.parse` throws) or a well-formed JSON body parsed to an `Event`. -/
inductive Raw where
  | malformed : Raw
  | wellFormed (e : Event) : Raw
deriving DecidableEq, Repr

/-- An inbound HTTP request as the handler sees it: the method, the five
`paypal-*` verification headers, and `req.rawBody` (`none` when absent; a
present body, even empty, is a truthy Buffer in JS). -/
structure Request where
  method : String
  transmissionId : Option String
  transmissionTime : Option String
  certUrl : Option String
  authAlgo : Option String
  transmissionSig : Option String
  rawBody : Option Raw
deriving DecidableEq, Repr

/-- Outcome of the external `client.execute(verificationRequest)` call:
either the await throws, or it returns a `verification_status` string. -/
inductive VerifyOutcome where
  | error : VerifyOutcome
  | result (status : String) : VerifyOutcome
deriving DecidableEq, Repr

/-- Outcome of the external `userDocRef.update(...)` call. -/
inductive StoreOutcome where
  | ok : StoreOutcome
  | error : StoreOutcome
deriving DecidableEq, Repr

/-- The behaviour of the two external collaborators during one invocation. -/
structure World where
  verify : VerifyOutcome
  store : StoreOutcome
deriving DecidableEq, Repr

/-- What the handler invocation produced: an HTTP status, or an exception
that escaped the handler uncaught. -/
inductive HResp where
  | status (n : Nat) : HResp
  | thrown : HResp
deriving DecidableEq, Repr

/-- The partial-field `subscriptionUpdate` object built by the switch:
`subscription.status` is always set; `subscription.plan` and
`subscription.validity` are set only when present (`none` = field not in the
update, so the stored value is left untouched). -/
structure SubUpdate where
  status : String
  plan : Option String
  validity : Option String
deriving DecidableEq, Repr

/-- Result of one handler invocation: the response (or escaped exception),
whether the verification call was issued, and the store update that was
attempted (key = Firebase user id, fields = the partial update), `none` when
no update call was made. -/
structure HandlerResult where
  resp : HResp
  verifyCalled : Bool
  update : Option (String × SubUpdate)
deriving DecidableEq, Repr

/-- The guard `!transmissionId || ... || !requestBody || !webhookId` of the
source: true when any verification input is missing/falsy.  A present raw
body is a Buffer, truthy even when empty, so only an absent body fails. -/
def missingVerificationData (c : PayPalConfig) (req : Request) : Bool :=
  !truthyOpt req.transmissionId || !truthyOpt req.transmissionTime ||
  !truthyOpt req.certUrl || !truthyOpt req.authAlgo ||
  !truthyOpt req.transmissionSig || !req.rawBody.isSome ||
  !truthyOpt (webhookId c)

/-- JS `s.startsWith(pre)`: the character sequence `pre` is a prefix of
`s`, stated over character lists so that concrete instances evaluate. -/
def jsStartsWith (s pre : String) : Bool :=
  pre.data.isPrefixOf s.data

/-- The optionally chained check whether `resource.id` starts with I-: `undefined`
(falsy) when `id` is absent. -/
def idStartsWithI (o : Option String) : Bool :=
  match o with
  | none => false
  | some s => jsStartsWith s "I-"

/-- The plan-name block: `planName` stays `"Unknown Plan"` unless `plan_id`
is truthy and strictly equal to one of the three configured plan ids. -/
def planNameFor (c : PayPalConfig) (planId : Option String) : String :=
  match planId with
  | none => "Unknown Plan"
  | some p =>
    if p = "" then "Unknown Plan"
    else if planIdMonthly c = some p then "Pro Plan (Monthly)"
    else if planIdYearly c = some p then "Pro Plan (Yearly)"
    else if planIdTrial c = some p then "Pro Trial"
    else "Unknown Plan"

/-- The `switch (eventType)` dispatch: `some upd` when a branch builds a
`subscriptionUpdate` and falls through to the Firestore write, `none` when
the branch (or the default) returns 200 without mutating.  The ACTIVATED and
PAYMENT.SALE.COMPLETED cases share one body behind the
guard on `billing_agreement_id` or an id starting with I-. -/
def subscriptionUpdateFor (c : PayPalConfig) (eventType : Option String)
    (resource : Resource) : Option SubUpdate :=
  if eventType = some "BILLING.SUBSCRIPTION.ACTIVATED" ∨
     eventType = some "PAYMENT.SALE.COMPLETED" then
    if truthyOpt resource.billing_agreement_id || idStartsWithI resource.id then
      some { status := "active"
             plan := if truthyOpt resource.plan_id then
                       some (planNameFor c resource.plan_id) else none
             validity := none }
    else none
  else if eventType = some "BILLING.SUBSCRIPTION.CANCELLED" then
    some { status := "cancelled", plan := none, validity := some "Cancelled" }
  else if eventType = some "BILLING.SUBSCRIPTION.SUSPENDED" ∨
          eventType = some "BILLING.SUBSCRIPTION.PAYMENT.FAILED" then
    some { status := "payment_failed", plan := none,
           validity := some "Payment Issue" }
  else none

/-- Processing after a successful verification: `resource.custom_id` is
dereferenced without optional chaining, so an absent `resource` throws; a
falsy `custom_id` is acknowledged with 200; otherwise the switch runs and a
built update is sent to the store (200 on success, 500 on error). -/
def handleVerifiedEvent (c : PayPalConfig) (w : World) (event : Event) :
    HandlerResult :=
  match event.resource with
  | none => { resp := HResp.thrown, verifyCalled := true, update := none }
  | some resource =>
    match resource.custom_id with
    | none => { resp := HResp.status 200, verifyCalled := true, update := none }
    | some uid =>
      if uid = "" then
        { resp := HResp.status 200, verifyCalled := true, update := none }
      else
        match subscriptionUpdateFor c event.event_type resource with
        | none =>
          { resp := HResp.status 200, verifyCalled := true, update := none }
        | some upd =>
          match w.store with
          | StoreOutcome.ok =>
            { resp := HResp.status 200, verifyCalled := true,
              update := some (uid, upd) }
          | StoreOutcome.error =>
            { resp := HResp.status 500, verifyCalled := true,
              update := some (uid, upd) }

/-- The whole `paypalWebhookHandler`: method gate (405), missing-data gate
(400), `JSON.parse(req.rawBody)` outside the try/catch (an invalid body
throws before the verification call), the verification call (await error →
500, non-SUCCESS status → 400), then the verified-event processing. -/
def paypalWebhookHandler (c : PayPalConfig) (w : World) (req : Request) :
    HandlerResult :=
  if req.method ≠ "POST" then
    { resp := HResp.status 405, verifyCalled := false, update := none }
  else if missingVerificationData c req then
    { resp := HResp.status 400, verifyCalled := false, update := none }
  else
    match req.rawBody with
    | none =>
      { resp := HResp.status 400, verifyCalled := false, update := none }
    | some Raw.malformed =>
      { resp := HResp.thrown, verifyCalled := false, update := none }
    | some (Raw.wellFormed event) =>
      match w.verify with
      | VerifyOutcome.error =>
        { resp := HResp.status 500, verifyCalled := true, update := none }
      | VerifyOutcome.result s =>
        if s ≠ "SUCCESS" then
          { resp := HResp.status 400, verifyCalled := true, update := none }
        else handleVerifiedEvent c w event

/-- The `custom_id` carried by the parsed body of the request, if any. -/
def requestCustomId (req : Request) : Option String :=
  match req.rawBody with
  | some (Raw.wellFormed e) =>
    match e.resource with
    | some r => r.custom_id
    | none => none
  | _ => none

/-- The subscription fields of a user document (the only fields this system ever
writes; the record itself is owned by the signup flow). -/
structure UserRecord where
  subscriptionStatus : String
  subscriptionPlan : String
  subscriptionValidity : String
deriving DecidableEq, Repr

/-- Firestore partial-field update semantics: only the fields named in the
update object change; absent fields keep their stored value. -/
def applyUpdate (r : UserRecord) (u : SubUpdate) : UserRecord :=
  { subscriptionStatus := u.status
    subscriptionPlan := u.plan.getD r.subscriptionPlan
    subscriptionValidity := u.validity.getD r.subscriptionValidity }

/-- The effect of one handler invocation on the addressed user record: the
attempted update is applied when the store call succeeds, otherwise the
record is unchanged. -/
def processOnRecord (c : PayPalConfig) (w : World) (req : Request)
    (r : UserRecord) : UserRecord :=
  match (paypalWebhookHandler c w req).update, w.store with
  | some (_, u), StoreOutcome.ok => applyUpdate r u
  | _, _ => r

/-- A request is well-shaped when its body, if present, is valid JSON whose
parsed object carries a `resource` member: on such requests no exception can
escape the handler. -/
def bodyShapeOk (req : Request) : Bool :=
  match req.rawBody with
  | none => true
  | some Raw.malformed => false
  | some (Raw.wellFormed e) => e.resource.isSome

/-! ### Concrete fixtures used by witnesses and counterexamples -/

/-- A production configuration with a webhook id and all three live plan ids. -/
def cfgA : PayPalConfig :=
  { production := true, webhook_id := some "WH-1", sandbox_webhook_id := none,
    live_plan_monthly := some "P-M", sandbox_plan_monthly := none,
    live_plan_yearly := some "P-Y", sandbox_plan_yearly := none,
    live_plan_trial := some "P-T", sandbox_plan_trial := none }

/-- A world where verification reports SUCCESS and the store update succeeds. -/
def wOk : World :=
  { verify := VerifyOutcome.result "SUCCESS", store := StoreOutcome.ok }

/-- A world where the verification call itself throws. -/
def wVerifyErr : World :=
  { verify := VerifyOutcome.error, store := StoreOutcome.ok }

/-- A world where the verification call returns a FAILURE status. -/
def wVerifyFail : World :=
  { verify := VerifyOutcome.result "FAILURE", store := StoreOutcome.ok }

/-- A POST request with all five provider headers and the given raw body. -/
def mkPost (b : Option Raw) : Request :=
  { method := "POST", transmissionId := some "tid",
    transmissionTime := some "2024-01-01T00:00:00Z", certUrl := some "certurl",
    authAlgo := some "SHA256withRSA", transmissionSig := some "sig",
    rawBody := b }

/-- A verified cancellation event for user "user1". -/
def reqCancelled : Request := mkPost (some (Raw.wellFormed
  { event_type := some "BILLING.SUBSCRIPTION.CANCELLED",
    resource := some { id := some "I-1", billing_agreement_id := none,
                       plan_id := none, custom_id := some "user1" } }))

/-- An ACTIVATED event for user "user1" whose resource has neither a
billing agreement id nor an id starting with I-. -/
def reqActNoSub : Request := mkPost (some (Raw.wellFormed
  { event_type := some "BILLING.SUBSCRIPTION.ACTIVATED",
    resource := some { id := none, billing_agreement_id := none,
                       plan_id := none, custom_id := some "user1" } }))

/-- An ACTIVATED event carrying the configured monthly plan id but neither a
billing agreement id nor an id starting with I-. -/
def reqActPlanNoSub : Request := mkPost (some (Raw.wellFormed
  { event_type := some "BILLING.SUBSCRIPTION.ACTIVATED",
    resource := some { id := some "sub-2", billing_agreement_id := none,
                       plan_id := some "P-M", custom_id := some "user2" } }))

/-- An ACTIVATED subscription event carrying the configured monthly plan id. -/
def reqActPlan : Request := mkPost (some (Raw.wellFormed
  { event_type := some "BILLING.SUBSCRIPTION.ACTIVATED",
    resource := some { id := some "I-9", billing_agreement_id := none,
                       plan_id := some "P-M", custom_id := some "user3" } }))

/-- A POST request whose raw body is not valid JSON. -/
def reqMalformed : Request := mkPost (some Raw.malformed)

/-- A well-formed body that has no resource member at all. -/
def reqNoResource : Request := mkPost (some (Raw.wellFormed
  { event_type := some "BILLING.SUBSCRIPTION.CANCELLED", resource := none }))

/-- A verified event whose resource lacks custom_id. -/
def reqNoCustomId : Request := mkPost (some (Raw.wellFormed
  { event_type := some "BILLING.SUBSCRIPTION.ACTIVATED",
    resource := some { id := some "I-3", billing_agreement_id := none,
                       plan_id := none, custom_id := none } }))

/-- A PAYMENT.SALE.COMPLETED event unrelated to a subscription: no billing
agreement id and a sale id not starting with I-. -/
def reqSaleNotSub : Request := mkPost (some (Raw.wellFormed
  { event_type := some "PAYMENT.SALE.COMPLETED",
    resource := some { id := some "8AB12345", billing_agreement_id := none,
                       plan_id := none, custom_id := some "user4" } }))

/-- The update object built by the CANCELLED branch. -/
def cancelledUpdate : SubUpdate :=
  { status := "cancelled", plan := none, validity := some "Cancelled" }

/-- A sample stored user record. -/
def recA : UserRecord :=
  { subscriptionStatus := "active", subscriptionPlan := "Pro Plan (Monthly)",
    subscriptionValidity := "2025-01-01" }

/-! ### Path lemmas for the handler -/

theorem handler_method_ne {c : PayPalConfig} {w : World} {req : Request}
    (h : req.method ≠ "POST") :
    paypalWebhookHandler c w req =
      { resp := HResp.status 405, verifyCalled := false, update := none } := by
  unfold paypalWebhookHandler
  rw [if_pos h]

theorem handler_missing {c : PayPalConfig} {w : World} {req : Request}
    (hm : req.method = "POST") (h : missingVerificationData c req = true) :
    paypalWebhookHandler c w req =
      { resp := HResp.status 400, verifyCalled := false, update := none } := by
  unfold paypalWebhookHandler
  rw [if_neg (by simp [hm]), if_pos h]

theorem handler_verify_error {c : PayPalConfig} {w : World} {req : Request}
    {ev : Event} (hm : req.method = "POST")
    (hmiss : missingVerificationData c req = false)
    (hbody : req.rawBody = some (Raw.wellFormed ev))
    (hv : w.verify = VerifyOutcome.error) :
    paypalWebhookHandler c w req =
      { resp := HResp.status 500, verifyCalled := true, update := none } := by
  unfold paypalWebhookHandler
  rw [if_neg (by simp [hm]), if_neg (by simp [hmiss]), hbody, hv]

theorem handler_verify_fail {c : PayPalConfig} {w : World} {req : Request}
    {ev : Event} {s : String} (hm : req.method = "POST")
    (hmiss : missingVerificationData c req = false)
    (hbody : req.rawBody = some (Raw.wellFormed ev))
    (hv : w.verify = VerifyOutcome.result s) (hs : s ≠ "SUCCESS") :
    paypalWebhookHandler c w req =
      { resp := HResp.status 400, verifyCalled := true, update := none } := by
  unfold paypalWebhookHandler
  rw [if_neg (by simp [hm]), if_neg (by simp [hmiss]), hbody, hv]
  simp [hs]

theorem handler_verified {c : PayPalConfig} {w : World} {req : Request}
    {ev : Event} (hm : req.method = "POST")
    (hmiss : missingVerificationData c req = false)
    (hbody : req.rawBody = some (Raw.wellFormed ev))
    (hv : w.verify = VerifyOutcome.result "SUCCESS") :
    paypalWebhookHandler c w req = handleVerifiedEvent c w ev := by
  unfold paypalWebhookHandler
  rw [if_neg (by simp [hm]), if_neg (by simp [hmiss]), hbody, hv]
  simp

theorem handleVerified_noResource {c : PayPalConfig} {w : World} {ev : Event}
    (hres : ev.resource = none) :
    handleVerifiedEvent c w ev =
      { resp := HResp.thrown, verifyCalled := true, update := none } := by
  unfold handleVerifiedEvent
  rw [hres]

theorem handleVerified_noCustomId {c : PayPalConfig} {w : World} {ev : Event}
    {res : Resource} (hres : ev.resource = some res)
    (hcid : res.custom_id = none) :
    handleVerifiedEvent c w ev =
      { resp := HResp.status 200, verifyCalled := true, update := none } := by
  unfold handleVerifiedEvent
  rw [hres]
  simp [hcid]

theorem handleVerified_noUpdate {c : PayPalConfig} {w : World} {ev : Event}
    {res : Resource} {uid : String} (hres : ev.resource = some res)
    (hcid : res.custom_id = some uid) (huid : uid ≠ "")
    (hsub : subscriptionUpdateFor c ev.event_type res = none) :
    handleVerifiedEvent c w ev =
      { resp := HResp.status 200, verifyCalled := true, update := none } := by
  unfold handleVerifiedEvent
  rw [hres]
  simp [hcid, huid, hsub]

theorem handleVerified_update {c : PayPalConfig} {w : World} {ev : Event}
    {res : Resource} {uid : String} {upd : SubUpdate}
    (hres : ev.resource = some res) (hcid : res.custom_id = some uid)
    (huid : uid ≠ "")
    (hsub : subscriptionUpdateFor c ev.event_type res = some upd) :
    handleVerifiedEvent c w ev =
      { resp := if w.store = StoreOutcome.ok then HResp.status 200
                else HResp.status 500,
        verifyCalled := true, update := some (uid, upd) } := by
  unfold handleVerifiedEvent
  rw [hres]
  simp only [hcid, huid, hsub]
  cases hst : w.store <;> simp [hst, huid]

/-! ### Dispatch lemmas -/

theorem subUpdateFor_cancelled (c : PayPalConfig) (res : Resource) :
    subscriptionUpdateFor c (some "BILLING.SUBSCRIPTION.CANCELLED") res =
      some cancelledUpdate := by
  unfold subscriptionUpdateFor cancelledUpdate
  rw [if_neg (by decide), if_pos (by decide)]

theorem subUpdateFor_subscription {c : PayPalConfig} {et : Option String}
    (res : Resource)
    (het : et = some "BILLING.SUBSCRIPTION.ACTIVATED" ∨
           et = some "PAYMENT.SALE.COMPLETED")
    (hcond : (truthyOpt res.billing_agreement_id || idStartsWithI res.id)
              = true) :
    subscriptionUpdateFor c et res =
      some { status := "active"
             plan := if truthyOpt res.plan_id then
                       some (planNameFor c res.plan_id) else none
             validity := none } := by
  unfold subscriptionUpdateFor
  rw [if_pos het, if_pos hcond]

theorem subUpdateFor_notSubscription {c : PayPalConfig} {et : Option String}
    (res : Resource)
    (het : et = some "BILLING.SUBSCRIPTION.ACTIVATED" ∨
           et = some "PAYMENT.SALE.COMPLETED")
    (hcond : (truthyOpt res.billing_agreement_id || idStartsWithI res.id)
              = false) :
    subscriptionUpdateFor c et res = none := by
  unfold subscriptionUpdateFor
  rw [if_pos het, if_neg (by simp [hcond])]

/-! ### Inversion lemmas -/

theorem subUpdateFor_inv {c : PayPalConfig} {et : Option String}
    {res : Resource} {u : SubUpdate}
    (h : subscriptionUpdateFor c et res = some u) :
    u.status = "active" ∨ u.status = "cancelled" ∨
      u.status = "payment_failed" := by
  unfold subscriptionUpdateFor at h
  split at h
  · split at h
    · simp only [Option.some.injEq] at h
      rw [← h]
      left
      rfl
    · simp at h
  · split at h
    · simp only [Option.some.injEq] at h
      rw [← h]
      right; left
      rfl
    · split at h
      · simp only [Option.some.injEq] at h
        rw [← h]
        right; right
        rfl
      · simp at h

theorem verifyCalled_inv {c : PayPalConfig} {w : World} {req : Request}
    (h : (paypalWebhookHandler c w req).verifyCalled = true) :
    req.method = "POST" ∧ missingVerificationData c req = false ∧
      ∃ ev, req.rawBody = some (Raw.wellFormed ev) := by
  unfold paypalWebhookHandler at h
  by_cases hm : req.method ≠ "POST"
  · rw [if_pos hm] at h
    simp at h
  · rw [if_neg hm] at h
    rw [ne_eq, not_not] at hm
    by_cases hd : missingVerificationData c req = true
    · rw [if_pos hd] at h
      simp at h
    · rw [if_neg hd] at h
      refine ⟨hm, by simpa using hd, ?_⟩
      cases hb : req.rawBody with
      | none => rw [hb] at h; simp at h
      | some r =>
        cases r with
        | malformed => rw [hb] at h; simp at h
        | wellFormed ev => exact ⟨ev, rfl⟩

theorem handler_update_inv {c : PayPalConfig} {w : World} {req : Request}
    {uid : String} {u : SubUpdate}
    (h : (paypalWebhookHandler c w req).update = some (uid, u)) :
    ∃ ev res, req.rawBody = some (Raw.wellFormed ev) ∧
      ev.resource = some res ∧ res.custom_id = some uid ∧ uid ≠ "" ∧
      subscriptionUpdateFor c ev.event_type res = some u := by
  unfold paypalWebhookHandler at h
  split at h
  · simp at h
  · split at h
    · simp at h
    · split at h
      · simp at h
      · simp at h
      · rename_i ev hb
        split at h
        · simp at h
        · split at h
          · simp at h
          · unfold handleVerifiedEvent at h
            split at h
            · simp at h
            · rename_i res hres
              split at h
              · simp at h
              · rename_i uid' hcid
                split at h
                · simp at h
                · rename_i huid
                  split at h
                  · simp at h
                  · rename_i upd hsub
                    split at h <;>
                    · simp only [Option.some.injEq, Prod.mk.injEq] at h
                      refine ⟨ev, res, hb, hres, ?_, ?_, ?_⟩
                      · rw [hcid, h.1]
                      · rw [← h.1]; exact huid
                      · rw [hsub, h.2]

/-- An ACTIVATED event with a billing agreement id and no plan_id. -/
def reqActBai : Request := mkPost (some (Raw.wellFormed
  { event_type := some "BILLING.SUBSCRIPTION.ACTIVATED",
    resource := some { id := none, billing_agreement_id := some "BA-1",
                       plan_id := none, custom_id := some "user5" } }))

/-- A POST request with the transmission-signature header absent. -/
def reqNoSig : Request :=
  { method := "POST", transmissionId := some "tid",
    transmissionTime := some "2024-01-01T00:00:00Z", certUrl := some "certurl",
    authAlgo := some "SHA256withRSA", transmissionSig := none,
    rawBody := some (Raw.wellFormed
      { event_type := some "BILLING.SUBSCRIPTION.CANCELLED",
        resource := some { id := some "I-1", billing_agreement_id := none,
                           plan_id := none, custom_id := some "user1" } }) }

/-! ### Claims -/

/-- C1, amended: for a verified POST carrying BILLING.SUBSCRIPTION.ACTIVATED
with a usable custom_id, the ACTIVATED case falls through into the shared
subscription guard, so the mutation additionally requires a truthy
billing_agreement_id or an id starting with I-; when the guard holds the
update sets subscription.status to active, attaching the resolved plan name
exactly when plan_id is present, and when it fails the handler answers 200
with no update. -/
theorem spec_c1 (c : PayPalConfig) (w : World) (req : Request) (ev : Event)
    (res : Resource) (uid : String)
    (hm : req.method = "POST")
    (hmiss : missingVerificationData c req = false)
    (hbody : req.rawBody = some (Raw.wellFormed ev))
    (hv : w.verify = VerifyOutcome.result "SUCCESS")
    (hres : ev.resource = some res)
    (hcid : res.custom_id = some uid) (huid : uid ≠ "")
    (het : ev.event_type = some "BILLING.SUBSCRIPTION.ACTIVATED") :
    ((truthyOpt res.billing_agreement_id || idStartsWithI res.id) = true →
      (paypalWebhookHandler c w req).update =
        some (uid, { status := "active"
                     plan := if truthyOpt res.plan_id then
                               some (planNameFor c res.plan_id) else none
                     validity := none })) ∧
    ((truthyOpt res.billing_agreement_id || idStartsWithI res.id) = false →
      (paypalWebhookHandler c w req).resp = HResp.status 200 ∧
      (paypalWebhookHandler c w req).update = none) := by
  constructor
  · intro hcond
    rw [handler_verified hm hmiss hbody hv,
        handleVerified_update hres hcid huid
          (subUpdateFor_subscription res (Or.inl het) hcond)]
  · intro hcond
    rw [handler_verified hm hmiss hbody hv,
        handleVerified_noUpdate hres hcid huid
          (subUpdateFor_notSubscription res (Or.inl het) hcond)]
    exact ⟨rfl, rfl⟩

/-- C1 counterexample: a verified ACTIVATED event with custom_id user1 but
no billing_agreement_id and no id is acknowledged with 200 and issues no
store update, refuting the claim that no extra condition on those fields is
required for the mutation. -/
theorem spec_c1_counterexample :
    reqActNoSub.method = "POST" ∧
    (paypalWebhookHandler cfgA wOk reqActNoSub).verifyCalled = true ∧
    requestCustomId reqActNoSub = some "user1" ∧
    (paypalWebhookHandler cfgA wOk reqActNoSub).update = none ∧
    (paypalWebhookHandler cfgA wOk reqActNoSub).resp = HResp.status 200 := by
  decide

/-- C1 witness: an ACTIVATED event with a billing agreement id and no
plan_id yields the status-only active update for user5. -/
theorem spec_c1_witness :
    (paypalWebhookHandler cfgA wOk reqActBai).update =
      some ("user5", { status := "active", plan := none, validity := none }) := by
  have h := (spec_c1 cfgA wOk reqActBai
    { event_type := some "BILLING.SUBSCRIPTION.ACTIVATED",
      resource := some { id := none, billing_agreement_id := some "BA-1",
                         plan_id := none, custom_id := some "user5" } }
    { id := none, billing_agreement_id := some "BA-1",
      plan_id := none, custom_id := some "user5" }
    "user5" rfl (by decide) rfl rfl rfl rfl (by decide) rfl).1 (by decide)
  simpa using h

/-- C2, amended: the handler converts every failure to a single HTTP status
provided the raw body, when present, is valid JSON carrying a resource
member; a non-JSON body that reaches parsing (the parse sits outside the
try/catch) or a parsed body without a resource member instead lets an
exception escape the handler. -/
theorem spec_c2 (c : PayPalConfig) (w : World) (req : Request)
    (h : bodyShapeOk req = true) :
    ∃ n, (paypalWebhookHandler c w req).resp = HResp.status n := by
  by_cases hm : req.method = "POST"
  · by_cases hd0 : missingVerificationData c req = true
    · rw [handler_missing hm hd0]
      exact ⟨400, rfl⟩
    · have hd : missingVerificationData c req = false := by simpa using hd0
      cases hb : req.rawBody with
      | none =>
        exfalso
        simp [missingVerificationData, hb] at hd
      | some r =>
        cases r with
        | malformed =>
          exfalso
          unfold bodyShapeOk at h
          rw [hb] at h
          simp at h
        | wellFormed ev =>
          have hres0 : ev.resource.isSome = true := by
            unfold bodyShapeOk at h
            rw [hb] at h
            simpa using h
          obtain ⟨res, hres⟩ := Option.isSome_iff_exists.mp hres0
          cases hv : w.verify with
          | error =>
            rw [handler_verify_error hm hd hb hv]
            exact ⟨500, rfl⟩
          | result s =>
            by_cases hs : s = "SUCCESS"
            · subst hs
              rw [handler_verified hm hd hb hv]
              cases hcid : res.custom_id with
              | none =>
                rw [handleVerified_noCustomId hres hcid]
                exact ⟨200, rfl⟩
              | some uid =>
                by_cases huid : uid = ""
                · have h200 : handleVerifiedEvent c w ev =
                      { resp := HResp.status 200, verifyCalled := true,
                        update := none } := by
                    unfold handleVerifiedEvent
                    rw [hres]
                    simp [hcid, huid]
                  rw [h200]
                  exact ⟨200, rfl⟩
                · cases hsub : subscriptionUpdateFor c ev.event_type res with
                  | none =>
                    rw [handleVerified_noUpdate hres hcid huid hsub]
                    exact ⟨200, rfl⟩
                  | some upd =>
                    rw [handleVerified_update hres hcid huid hsub]
                    cases hst : w.store with
                    | ok => exact ⟨200, by simp [hst]⟩
                    | error => exact ⟨500, by simp [hst]⟩
            · rw [handler_verify_fail hm hd hb hv hs]
              exact ⟨400, rfl⟩
  · rw [handler_method_ne hm]
    exact ⟨405, rfl⟩

/-- C2 counterexample: a POST with all verification headers and a raw body
that is not valid JSON makes JSON.parse throw before the try/catch, so the
exception escapes the handler and no HTTP status is produced. -/
theorem spec_c2_counterexample :
    (paypalWebhookHandler cfgA wOk reqMalformed).resp = HResp.thrown := by
  decide

/-- C2 witness: a well-shaped cancellation request gets a single status. -/
theorem spec_c2_witness :
    bodyShapeOk reqCancelled = true ∧
    ∃ n, (paypalWebhookHandler cfgA wOk reqCancelled).resp =
           HResp.status n :=
  ⟨by decide, spec_c2 cfgA wOk reqCancelled (by decide)⟩

/-- C3: a verified POST carrying BILLING.SUBSCRIPTION.CANCELLED with a
usable custom_id attempts exactly the two-field partial update setting
subscription.status to cancelled and subscription.validity to Cancelled (no
plan field), and a successful store call yields status 200. -/
theorem spec_c3 (c : PayPalConfig) (w : World) (req : Request) (ev : Event)
    (res : Resource) (uid : String)
    (hm : req.method = "POST")
    (hmiss : missingVerificationData c req = false)
    (hbody : req.rawBody = some (Raw.wellFormed ev))
    (hv : w.verify = VerifyOutcome.result "SUCCESS")
    (hres : ev.resource = some res)
    (hcid : res.custom_id = some uid) (huid : uid ≠ "")
    (het : ev.event_type = some "BILLING.SUBSCRIPTION.CANCELLED") :
    (paypalWebhookHandler c w req).update = some (uid, cancelledUpdate) ∧
    (w.store = StoreOutcome.ok →
      (paypalWebhookHandler c w req).resp = HResp.status 200) := by
  rw [handler_verified hm hmiss hbody hv,
      handleVerified_update hres hcid huid
        (by rw [het]; exact subUpdateFor_cancelled c res)]
  refine ⟨rfl, ?_⟩
  intro hst
  simp [hst]

/-- C3 witness: the cancellation request for user1 attempts exactly the
cancelled update and is answered 200. -/
theorem spec_c3_witness :
    (paypalWebhookHandler cfgA wOk reqCancelled).update =
      some ("user1", cancelledUpdate) ∧
    (wOk.store = StoreOutcome.ok →
      (paypalWebhookHandler cfgA wOk reqCancelled).resp = HResp.status 200) :=
  spec_c3 cfgA wOk reqCancelled
    { event_type := some "BILLING.SUBSCRIPTION.CANCELLED",
      resource := some { id := some "I-1", billing_agreement_id := none,
                         plan_id := none, custom_id := some "user1" } }
    { id := some "I-1", billing_agreement_id := none,
      plan_id := none, custom_id := some "user1" }
    "user1" rfl (by decide) rfl rfl rfl rfl (by decide) rfl

/-- C4: whenever the handler issues the verification call, an erroring call
produces status 500 and a call returning a non-SUCCESS verification status
produces status 400, and in both cases no store update is attempted. -/
theorem spec_c4 (c : PayPalConfig) (w : World) (req : Request)
    (hcall : (paypalWebhookHandler c w req).verifyCalled = true) :
    (w.verify = VerifyOutcome.error →
      (paypalWebhookHandler c w req).resp = HResp.status 500 ∧
      (paypalWebhookHandler c w req).update = none) ∧
    (∀ s, w.verify = VerifyOutcome.result s → s ≠ "SUCCESS" →
      (paypalWebhookHandler c w req).resp = HResp.status 400 ∧
      (paypalWebhookHandler c w req).update = none) := by
  obtain ⟨hm, hmiss, ev, hbody⟩ := verifyCalled_inv hcall
  constructor
  · intro hv
    rw [handler_verify_error hm hmiss hbody hv]
    exact ⟨rfl, rfl⟩
  · intro s hv hs
    rw [handler_verify_fail hm hmiss hbody hv hs]
    exact ⟨rfl, rfl⟩

/-- C4 witness: on the cancellation request an erroring verification call
gives 500 and a FAILURE verification status gives 400, never an update. -/
theorem spec_c4_witness :
    ((paypalWebhookHandler cfgA wVerifyErr reqCancelled).resp =
        HResp.status 500 ∧
     (paypalWebhookHandler cfgA wVerifyErr reqCancelled).update = none) ∧
    ((paypalWebhookHandler cfgA wVerifyFail reqCancelled).resp =
        HResp.status 400 ∧
     (paypalWebhookHandler cfgA wVerifyFail reqCancelled).update = none) :=
  ⟨(spec_c4 cfgA wVerifyErr reqCancelled (by decide)).1 rfl,
   (spec_c4 cfgA wVerifyFail reqCancelled (by decide)).2 "FAILURE" rfl
     (by decide)⟩

/-- C5: a verified PAYMENT.SALE.COMPLETED event with a usable custom_id, no
billing_agreement_id, and an id not starting with I- is acknowledged with
200 and no store update occurs. -/
theorem spec_c5 (c : PayPalConfig) (w : World) (req : Request) (ev : Event)
    (res : Resource) (uid : String) (i : String)
    (hm : req.method = "POST")
    (hmiss : missingVerificationData c req = false)
    (hbody : req.rawBody = some (Raw.wellFormed ev))
    (hv : w.verify = VerifyOutcome.result "SUCCESS")
    (hres : ev.resource = some res)
    (hcid : res.custom_id = some uid) (huid : uid ≠ "")
    (het : ev.event_type = some "PAYMENT.SALE.COMPLETED")
    (hbai : res.billing_agreement_id = none)
    (hid : res.id = some i) (hi : jsStartsWith i "I-" = false) :
    (paypalWebhookHandler c w req).resp = HResp.status 200 ∧
    (paypalWebhookHandler c w req).update = none := by
  have hcond : (truthyOpt res.billing_agreement_id || idStartsWithI res.id)
      = false := by
    simp [truthyOpt, idStartsWithI, hbai, hid, hi]
  rw [handler_verified hm hmiss hbody hv,
      handleVerified_noUpdate hres hcid huid
        (subUpdateFor_notSubscription res (Or.inr het) hcond)]
  exact ⟨rfl, rfl⟩

/-- C5 witness: a completed-sale event with sale id 8AB12345 and no billing
agreement is acknowledged without any update. -/
theorem spec_c5_witness :
    (paypalWebhookHandler cfgA wOk reqSaleNotSub).resp = HResp.status 200 ∧
    (paypalWebhookHandler cfgA wOk reqSaleNotSub).update = none :=
  spec_c5 cfgA wOk reqSaleNotSub
    { event_type := some "PAYMENT.SALE.COMPLETED",
      resource := some { id := some "8AB12345", billing_agreement_id := none,
                         plan_id := none, custom_id := some "user4" } }
    { id := some "8AB12345", billing_agreement_id := none,
      plan_id := none, custom_id := some "user4" }
    "user4" "8AB12345" rfl (by decide) rfl rfl rfl rfl (by decide) rfl rfl
    rfl (by decide)

/-- C6, amended: a verified POST whose parsed body carries a resource object
without a custom_id is acknowledged with 200 and no store update is
attempted, regardless of event_type; a body with no resource object at all
instead makes the custom_id dereference throw. -/
theorem spec_c6 (c : PayPalConfig) (w : World) (req : Request) (ev : Event)
    (res : Resource)
    (hm : req.method = "POST")
    (hmiss : missingVerificationData c req = false)
    (hbody : req.rawBody = some (Raw.wellFormed ev))
    (hv : w.verify = VerifyOutcome.result "SUCCESS")
    (hres : ev.resource = some res)
    (hcid : res.custom_id = none) :
    (paypalWebhookHandler c w req).resp = HResp.status 200 ∧
    (paypalWebhookHandler c w req).update = none := by
  rw [handler_verified hm hmiss hbody hv, handleVerified_noCustomId hres hcid]
  exact ⟨rfl, rfl⟩

/-- C6 counterexample: a verified POST whose parsed body has no resource
member lacks resource.custom_id, yet the handler throws instead of
returning 200. -/
theorem spec_c6_counterexample :
    requestCustomId reqNoResource = none ∧
    (paypalWebhookHandler cfgA wOk reqNoResource).resp = HResp.thrown ∧
    (paypalWebhookHandler cfgA wOk reqNoResource).resp ≠ HResp.status 200 := by
  decide

/-- C6 witness: a verified ACTIVATED event whose resource has no custom_id
is acknowledged with 200 and no update. -/
theorem spec_c6_witness :
    (paypalWebhookHandler cfgA wOk reqNoCustomId).resp = HResp.status 200 ∧
    (paypalWebhookHandler cfgA wOk reqNoCustomId).update = none :=
  spec_c6 cfgA wOk reqNoCustomId
    { event_type := some "BILLING.SUBSCRIPTION.ACTIVATED",
      resource := some { id := some "I-3", billing_agreement_id := none,
                         plan_id := none, custom_id := none } }
    { id := some "I-3", billing_agreement_id := none,
      plan_id := none, custom_id := none }
    rfl (by decide) rfl rfl rfl rfl

/-- C7, amended: a verified ACTIVATED event with a usable custom_id, a
plan_id matching the configured monthly plan (live/sandbox fallback rule),
and the subscription guard satisfied (billing_agreement_id present or id
starting with I-) attempts an update whose subscription.plan is Pro Plan
(Monthly); without the guard no update is issued at all. -/
theorem spec_c7 (c : PayPalConfig) (w : World) (req : Request) (ev : Event)
    (res : Resource) (uid : String) (p : String)
    (hm : req.method = "POST")
    (hmiss : missingVerificationData c req = false)
    (hbody : req.rawBody = some (Raw.wellFormed ev))
    (hv : w.verify = VerifyOutcome.result "SUCCESS")
    (hres : ev.resource = some res)
    (hcid : res.custom_id = some uid) (huid : uid ≠ "")
    (het : ev.event_type = some "BILLING.SUBSCRIPTION.ACTIVATED")
    (hplan : res.plan_id = some p) (hp : p ≠ "")
    (hmon : planIdMonthly c = some p)
    (hcond : (truthyOpt res.billing_agreement_id || idStartsWithI res.id)
              = true) :
    (paypalWebhookHandler c w req).update =
      some (uid, { status := "active", plan := some "Pro Plan (Monthly)",
                   validity := none }) := by
  have hpn : planNameFor c res.plan_id = "Pro Plan (Monthly)" := by
    rw [hplan]
    simp [planNameFor, hp, hmon]
  have htruthy : truthyOpt res.plan_id = true := by
    simp [truthyOpt, hplan, hp]
  rw [handler_verified hm hmiss hbody hv,
      handleVerified_update hres hcid huid
        (subUpdateFor_subscription res (Or.inl het) hcond)]
  simp [htruthy, hpn]

/-- C7 counterexample: a verified ACTIVATED event whose plan_id equals the
configured monthly plan but whose resource has no billing_agreement_id and
an id not starting with I- issues no store update at all, so no update
carrying the plan name exists. -/
theorem spec_c7_counterexample :
    planIdMonthly cfgA = some "P-M" ∧
    requestCustomId reqActPlanNoSub = some "user2" ∧
    (paypalWebhookHandler cfgA wOk reqActPlanNoSub).update = none ∧
    (paypalWebhookHandler cfgA wOk reqActPlanNoSub).resp =
      HResp.status 200 := by
  decide

/-- C7 witness: an ACTIVATED subscription event with id I-9 and the monthly
plan id attempts an update carrying Pro Plan (Monthly) for user3. -/
theorem spec_c7_witness :
    (paypalWebhookHandler cfgA wOk reqActPlan).update =
      some ("user3", { status := "active", plan := some "Pro Plan (Monthly)",
                       validity := none }) :=
  spec_c7 cfgA wOk reqActPlan
    { event_type := some "BILLING.SUBSCRIPTION.ACTIVATED",
      resource := some { id := some "I-9", billing_agreement_id := none,
                         plan_id := some "P-M", custom_id := some "user3" } }
    { id := some "I-9", billing_agreement_id := none,
      plan_id := some "P-M", custom_id := some "user3" }
    "user3" "P-M" rfl (by decide) rfl rfl rfl rfl (by decide) rfl rfl
    (by decide) rfl (by decide)

/-- C8: a POST request missing any one of the five provider headers, the
raw body, or the resolved webhook identifier is answered 400 and the
verification call is never issued. -/
theorem spec_c8 (c : PayPalConfig) (w : World) (req : Request)
    (hm : req.method = "POST")
    (h : req.transmissionId = none ∨ req.transmissionTime = none ∨
         req.certUrl = none ∨ req.authAlgo = none ∨
         req.transmissionSig = none ∨ req.rawBody = none ∨
         webhookId c = none) :
    (paypalWebhookHandler c w req).resp = HResp.status 400 ∧
    (paypalWebhookHandler c w req).verifyCalled = false := by
  have hd : missingVerificationData c req = true := by
    unfold missingVerificationData
    rcases h with h | h | h | h | h | h | h <;> simp [truthyOpt, h]
  rw [handler_missing hm hd]
  exact ⟨rfl, rfl⟩

/-- C8 witness: with the transmission-signature header absent the handler
answers 400 without calling the verifier. -/
theorem spec_c8_witness :
    (paypalWebhookHandler cfgA wOk reqNoSig).resp = HResp.status 400 ∧
    (paypalWebhookHandler cfgA wOk reqNoSig).verifyCalled = false :=
  spec_c8 cfgA wOk reqNoSig rfl
    (Or.inr (Or.inr (Or.inr (Or.inr (Or.inl rfl)))))

/-- C9: processing the same verified CANCELLED event twice against the same
user record leaves the record exactly as processing it once: the cancelled
update writes constant values, so it is idempotent on the store. -/
theorem spec_c9 (c : PayPalConfig) (w : World) (req : Request) (ev : Event)
    (res : Resource) (uid : String)
    (hm : req.method = "POST")
    (hmiss : missingVerificationData c req = false)
    (hbody : req.rawBody = some (Raw.wellFormed ev))
    (hv : w.verify = VerifyOutcome.result "SUCCESS")
    (hres : ev.resource = some res)
    (hcid : res.custom_id = some uid) (huid : uid ≠ "")
    (het : ev.event_type = some "BILLING.SUBSCRIPTION.CANCELLED")
    (hst : w.store = StoreOutcome.ok) (r : UserRecord) :
    processOnRecord c w req (processOnRecord c w req r) =
      processOnRecord c w req r := by
  have hupd : (paypalWebhookHandler c w req).update =
      some (uid, cancelledUpdate) := by
    rw [handler_verified hm hmiss hbody hv,
        handleVerified_update hres hcid huid
          (by rw [het]; exact subUpdateFor_cancelled c res)]
  unfold processOnRecord
  rw [hupd, hst]
  simp [applyUpdate, cancelledUpdate]

/-- C9 witness: cancelling twice for user1 equals cancelling once on a
sample active record. -/
theorem spec_c9_witness :
    processOnRecord cfgA wOk reqCancelled
        (processOnRecord cfgA wOk reqCancelled recA) =
      processOnRecord cfgA wOk reqCancelled recA :=
  spec_c9 cfgA wOk reqCancelled
    { event_type := some "BILLING.SUBSCRIPTION.CANCELLED",
      resource := some { id := some "I-1", billing_agreement_id := none,
                         plan_id := none, custom_id := some "user1" } }
    { id := some "I-1", billing_agreement_id := none,
      plan_id := none, custom_id := some "user1" }
    "user1" rfl (by decide) rfl rfl rfl rfl (by decide) rfl rfl recA

/-- C10: every store update the handler attempts carries a status among
active, cancelled and payment_failed — never the default unknown — and is
keyed by the custom_id of the body of the request itself; and whenever the dispatch
of a verified attributable event builds no update, the handler answers 200
with no update. -/
theorem spec_c10 (c : PayPalConfig) (w : World) (req : Request) :
    (∀ uid u, (paypalWebhookHandler c w req).update = some (uid, u) →
      (u.status = "active" ∨ u.status = "cancelled" ∨
        u.status = "payment_failed") ∧ u.status ≠ "unknown" ∧
      requestCustomId req = some uid) ∧
    (∀ ev res uid, req.method = "POST" →
      missingVerificationData c req = false →
      req.rawBody = some (Raw.wellFormed ev) →
      w.verify = VerifyOutcome.result "SUCCESS" →
      ev.resource = some res → res.custom_id = some uid → uid ≠ "" →
      subscriptionUpdateFor c ev.event_type res = none →
      (paypalWebhookHandler c w req).resp = HResp.status 200 ∧
      (paypalWebhookHandler c w req).update = none) := by
  constructor
  · intro uid u h
    obtain ⟨ev, res, hb, hres, hcid, huid, hsub⟩ := handler_update_inv h
    have hstat := subUpdateFor_inv hsub
    refine ⟨hstat, ?_, ?_⟩
    · rcases hstat with h1 | h1 | h1 <;> rw [h1] <;> decide
    · have hkey : requestCustomId req = res.custom_id := by
        unfold requestCustomId
        rw [hb]
        simp [hres]
      rw [hkey, hcid]
  · intro ev res uid hm hmiss hb hv hres hcid huid hsub
    rw [handler_verified hm hmiss hb hv,
        handleVerified_noUpdate hres hcid huid hsub]
    exact ⟨rfl, rfl⟩

/-- C10 witness: the cancelled update of user1 carries an allowed status and
is keyed by the custom_id of the request body. -/
theorem spec_c10_witness :
    (cancelledUpdate.status = "active" ∨
     cancelledUpdate.status = "cancelled" ∨
     cancelledUpdate.status = "payment_failed") ∧
    cancelledUpdate.status ≠ "unknown" ∧
    requestCustomId reqCancelled = some "user1" :=
  (spec_c10 cfgA wOk reqCancelled).1 "user1" cancelledUpdate (by decide)
